import Mathlib

/-!
# Verification of `js/web3forms.js` (Web3FormsHandler)

A shallow embedding of the contact-form submission handler of the
appskies-website repository.  The only stateful component is the
`Web3FormsHandler` class: its DOM-visible state (status region, submit
button, form fields) is modelled by `PageState`, the environment of one
submission attempt (validation result, honeypot, outcomes of the external
collaborators) by `SubmitEnv`, and `handleSubmit` is translated line by
line into a pure function returning the final state together with the
trace of externally visible effects.

The `getRecaptchaToken` polling loop and the timed auto-hide behaviour of
`showStatus` are modelled separately (`checkRecaptcha`, `runStatus`),
again directly from the source.
-/

namespace Web3Forms

/-- Kind of a status message, the `type` argument of `showStatus`. -/
inductive StatusType where
  | success
  | error
deriving DecidableEq, Repr

/-- The string interpolated into the class template by `showStatus`
(`this.statusDiv.className = "form-status " + type`). -/
def statusTypeStr : StatusType → String
  | .success => "success"
  | .error => "error"

/-- DOM-visible state touched by `Web3FormsHandler`.

* `fields` — an opaque snapshot of the form's field values; `form.reset()`
  replaces it by `resetFields`.
* `statusVisible`, `statusText`, `statusClass` — the `formStatus` div's
  `style.display == "block"`, `textContent` and `className`.
* `buttonDisabled` — `submitButton.disabled`.  The source dereferences
  `this.submitButton` unconditionally in `setLoadingState`, so the host
  page is assumed to supply the button.
* `btnTextDisplay`, `btnLoaderDisplay` — `style.display` of the optional
  `.btn-text` / `.btn-loader` sub-elements (`none` when the element is
  absent; the source null-checks these two). -/
structure PageState where
  fields : String
  statusVisible : Bool
  statusText : String
  statusClass : String
  buttonDisabled : Bool
  btnTextDisplay : Option String
  btnLoaderDisplay : Option String
deriving DecidableEq, Repr

/-- The field values `form.reset()` restores. -/
def resetFields : String := ""

/-- Model of `showStatus(message, type)`: writes the shared status region when the
`formStatus` div exists, otherwise returns immediately.  (The 5-second
auto-hide timer scheduled for success messages is modelled by the timed
status model below.) -/
def showStatus (statusDivPresent : Bool) (s : PageState)
    (message : String) (t : StatusType) : PageState :=
  if statusDivPresent then
    { s with
      statusText := message
      statusClass := "form-status " ++ statusTypeStr t
      statusVisible := true }
  else s

/-- Model of `hideStatus()`: hides the status region when the div exists. -/
def hideStatus (statusDivPresent : Bool) (s : PageState) : PageState :=
  if statusDivPresent then { s with statusVisible := false } else s

/-- Model of `setLoadingState(isLoading)`: toggles the submit button and its
optional label/spinner sub-elements. -/
def setLoadingState (s : PageState) (isLoading : Bool) : PageState :=
  if isLoading then
    { s with
      buttonDisabled := true
      btnTextDisplay := s.btnTextDisplay.map fun _ => "none"
      btnLoaderDisplay := s.btnLoaderDisplay.map fun _ => "inline-block" }
  else
    { s with
      buttonDisabled := false
      btnTextDisplay := s.btnTextDisplay.map fun _ => "inline"
      btnLoaderDisplay := s.btnLoaderDisplay.map fun _ => "none" }

/-- Outcome of the promise returned by `getRecaptchaToken`. -/
inductive TokenResult where
  | resolved (token : String)
  | rejected (err : String)
deriving DecidableEq, Repr

/-- Result of `await response.json()`. -/
inductive JsonBody where
  | unparsable
  | parsed (success : Bool) (message : Option String)
deriving DecidableEq, Repr

/-- Outcome of `await fetch(...)`: the promise rejects (network failure)
or yields a response whose body parses — or not — as JSON. -/
inductive FetchOutcome where
  | netError
  | ok (body : JsonBody)
deriving DecidableEq, Repr

/-- Behaviour of the ambient `gtag` global at the call site:
`typeof gtag === "undefined"`, a normally returning call, or a call that
throws. -/
inductive GtagBehavior where
  | absent
  | succeeds
  | throws
deriving DecidableEq, Repr

/-- Environment of one submission attempt: everything `handleSubmit` reads
from the DOM and the outcomes of its external collaborators. -/
structure SubmitEnv where
  formValid : Bool
  honeypotPresent : Bool
  honeypotChecked : Bool
  statusDivPresent : Bool
  recaptchaRespPresent : Bool
  tokenResult : TokenResult
  fetchResult : FetchOutcome
  gtag : GtagBehavior
deriving DecidableEq, Repr

/-- Externally visible effects of `handleSubmit`, in program order. -/
inductive Event where
  | setLoadingE (isLoading : Bool)
  | hideStatusE
  | showStatusE (message : String) (t : StatusType)
  | tokenAcquireE
  | fetchE
  | formResetE
  | gtagE
deriving DecidableEq, Repr

/-- The messages hard-coded in `handleSubmit`. -/
def validationErrorMsg : String := "Please fill in all required fields."

/-- Message shown on the honeypot short-circuit path. -/
def honeypotSuccessMsg : String := "Thank you! Your message has been sent."

/-- Message shown when the API reports `success: true`. -/
def apiSuccessMsg : String := "Thank you! Your message has been sent successfully."

/-- Generic error message of the catch block. -/
def genericErrorMsg : String :=
  "Sorry, there was an error sending your message. Please try again or email us directly."

/-- The `try` block of `handleSubmit` (lines 62–90 of the source): token
acquisition, token injection into `#recaptchaResponse`, fetch, JSON parse,
and the success branch including the optional `gtag` call.  Returns the
state, the effects, and whether an exception escaped to the catch block. -/
def tryBody (env : SubmitEnv) (s : PageState) : PageState × List Event × Bool :=
  match env.tokenResult with
  | .rejected _ => (s, [.tokenAcquireE], true)
  | .resolved _ =>
    if !env.recaptchaRespPresent then
      -- document.getElementById("recaptchaResponse") is null: the .value
      -- assignment throws a TypeError before FormData is collected.
      (s, [.tokenAcquireE], true)
    else
      match env.fetchResult with
      | .netError => (s, [.tokenAcquireE, .fetchE], true)
      | .ok .unparsable => (s, [.tokenAcquireE, .fetchE], true)
      | .ok (.parsed success _) =>
        if success then
          let s1 := showStatus env.statusDivPresent s apiSuccessMsg .success
          let s2 := { s1 with fields := resetFields }
          match env.gtag with
          | .absent =>
            (s2, [.tokenAcquireE, .fetchE, .showStatusE apiSuccessMsg .success,
                  .formResetE], false)
          | .succeeds =>
            (s2, [.tokenAcquireE, .fetchE, .showStatusE apiSuccessMsg .success,
                  .formResetE, .gtagE], false)
          | .throws =>
            (s2, [.tokenAcquireE, .fetchE, .showStatusE apiSuccessMsg .success,
                  .formResetE, .gtagE], true)
        else
          -- throw new Error(data.message || "Submission failed")
          (s, [.tokenAcquireE, .fetchE], true)

/-- The handler `handleSubmit(e)` translated line by line: native validation guard,
honeypot short-circuit, loading state, the `try` block, the catch block
(generic error message), and the `finally` block (restore the button). -/
def handleSubmit (env : SubmitEnv) (s0 : PageState) : PageState × List Event :=
  if !env.formValid then
    (showStatus env.statusDivPresent s0 validationErrorMsg .error,
     [.showStatusE validationErrorMsg .error])
  else if env.honeypotPresent && env.honeypotChecked then
    let s1 := showStatus env.statusDivPresent s0 honeypotSuccessMsg .success
    ({ s1 with fields := resetFields },
     [.showStatusE honeypotSuccessMsg .success, .formResetE])
  else
    let s1 := setLoadingState s0 true
    let s2 := hideStatus env.statusDivPresent s1
    let r := tryBody env s2
    let s4 :=
      if r.2.2 then showStatus env.statusDivPresent r.1 genericErrorMsg .error
      else r.1
    let evs2 :=
      if r.2.2 then r.2.1 ++ [.showStatusE genericErrorMsg .error]
      else r.2.1
    (setLoadingState s4 false,
     [.setLoadingE true, .hideStatusE] ++ evs2 ++ [.setLoadingE false])

/-- The `checkRecaptcha` closure inside `getRecaptchaToken`, with the
`attempts` counter made explicit.  `ready i` is whether the global
`grecaptcha` is defined at the time of the `i`-th readiness check; `exec`
is the outcome of `grecaptcha.execute(...)` once ready.  Returns the
promise outcome together with the times (ms after the first check) at
which the checks run: the first check runs immediately, and each retry is
scheduled by `setTimeout(checkRecaptcha, 500)`. -/
def checkRecaptcha (ready : Nat → Bool) (exec : TokenResult)
    (maxAttempts attempts : Nat) : TokenResult × List Nat :=
  if ready attempts then (exec, [500 * attempts])
  else if attempts + 1 < maxAttempts then
    let r := checkRecaptcha ready exec maxAttempts (attempts + 1)
    (r.1, 500 * attempts :: r.2)
  else
    -- attempts exhausted: resolve('') — continue without reCAPTCHA
    (.resolved "", [500 * attempts])
termination_by maxAttempts - attempts
decreasing_by omega

/-- Model of `getRecaptchaToken()`: runs the polling loop with `attempts = 0` and
`maxAttempts = 20`. -/
def getRecaptchaToken (ready : Nat → Bool) (exec : TokenResult) :
    TokenResult × List Nat :=
  checkRecaptcha ready exec 20 0

/-- Effects of `init()` observable from outside the controller. -/
structure InitEffects where
  listenerRegistered : Bool
  recaptchaScriptRequested : Bool
deriving DecidableEq, Repr

/-- The controller object built by the `Web3FormsHandler` constructor. -/
structure Controller where
  formBound : Bool
  initRun : Bool
  effects : InitEffects
deriving DecidableEq, Repr

/-- Model of `init()`: registers the submit interceptor and requests the reCAPTCHA
script (`loadRecaptcha`). -/
def init (c : Controller) : Controller :=
  { c with
    initRun := true
    effects := { listenerRegistered := true, recaptchaScriptRequested := true } }

/-- The constructor: `document.getElementById(formId)` finds the form iff
the page contains a matching element; `init` runs only inside
`if (this.form)`. -/
def mkWeb3FormsHandler (formFound : Bool) : Controller :=
  let c : Controller :=
    { formBound := formFound
      initRun := false
      effects := { listenerRegistered := false, recaptchaScriptRequested := false } }
  if formFound then init c else c

/-- Timed model of the shared status region.  `timers` holds the pending
auto-hide deadlines scheduled by `setTimeout(() => this.hideStatus(), 5000)`;
the source never cancels them. -/
structure TimedStatus where
  visible : Bool
  text : String
  cls : String
  timers : List Nat
deriving DecidableEq, Repr

/-- Timed `showStatus(message, type)` executed at absolute time `now`: overwrite
the single region and, for a success message, schedule an auto-hide at
`now + 5000`. -/
def showStatusAt (st : TimedStatus) (now : Nat) (message : String)
    (t : StatusType) : TimedStatus :=
  { visible := true
    text := message
    cls := "form-status " ++ statusTypeStr t
    timers := if t = .success then st.timers ++ [now + 5000] else st.timers }

/-- Timed `hideStatus()`. -/
def hideStatusAt (st : TimedStatus) : TimedStatus :=
  { st with visible := false }

/-- Fire every pending auto-hide timer with deadline ≤ `now`; each firing
calls `hideStatus`.  Text and class are untouched. -/
def fireTimers (st : TimedStatus) (now : Nat) : TimedStatus :=
  { st with
    visible := if st.timers.any (fun d => decide (d ≤ now)) then false else st.visible
    timers := st.timers.filter (fun d => !(decide (d ≤ now))) }

/-- A user-level call on the status region. -/
inductive StatusCall where
  | showCall (message : String) (t : StatusType)
  | hideCall
deriving DecidableEq, Repr

/-- Run timestamped `showStatus`/`hideStatus` calls (times nondecreasing,
all ≤ `tEnd`), firing due auto-hide timers before each call, and observe
the region at time `tEnd`. -/
def runStatus (st : TimedStatus) : List (Nat × StatusCall) → Nat → TimedStatus
  | [], tEnd => fireTimers st tEnd
  | (t, c) :: rest, tEnd =>
    let st1 := fireTimers st t
    let st2 :=
      match c with
      | .showCall m k => showStatusAt st1 t m k
      | .hideCall => hideStatusAt st1
    runStatus st2 rest tEnd

/-- The enabled, non-loading visual state of the submit control: button
enabled, label (when present) shown inline, spinner (when present) hidden. -/
def interactiveButton (s : PageState) : Bool :=
  !s.buttonDisabled &&
  (match s.btnTextDisplay with
   | none => true
   | some d => d == "inline") &&
  (match s.btnLoaderDisplay with
   | none => true
   | some d => d == "none")

/-- Number of fetch dispatches in a trace. -/
def countFetch : List Event → Nat
  | [] => 0
  | .fetchE :: rest => countFetch rest + 1
  | _ :: rest => countFetch rest

/-- Does every fetch in the trace happen while the submit button is
disabled?  Replays the `setLoadingState` toggles over the trace, starting
from the button's initial disabled flag. -/
def fetchesWhileDisabled (disabled : Bool) : List Event → Bool
  | [] => true
  | .setLoadingE b :: rest => fetchesWhileDisabled b rest
  | .fetchE :: rest => disabled && fetchesWhileDisabled disabled rest
  | _ :: rest => fetchesWhileDisabled disabled rest

/-- Fetch-level failures of a submission: the API reports
`success: false`, the body does not parse as JSON, or the fetch rejects. -/
def fetchFailed : FetchOutcome → Bool
  | .netError => true
  | .ok .unparsable => true
  | .ok (.parsed success _) => !success

/-- A concrete idle page state used by witnesses. -/
def idleState : PageState :=
  { fields := "name=alice"
    statusVisible := false
    statusText := ""
    statusClass := ""
    buttonDisabled := false
    btnTextDisplay := some "inline"
    btnLoaderDisplay := some "none" }

/-- A concrete environment for a submission whose API response reports
success and where the page defines a throwing `gtag`. -/
def gtagThrowEnv : SubmitEnv :=
  { formValid := true
    honeypotPresent := false
    honeypotChecked := false
    statusDivPresent := true
    recaptchaRespPresent := true
    tokenResult := .resolved "tok"
    fetchResult := .ok (.parsed true none)
    gtag := .throws }

/-- C1 — honeypot short-circuit: validation passed and the `botcheck`
checkbox exists and is checked.  `handleSubmit` issues the success status
call, resets the form, and performs neither token acquisition nor a fetch;
when the status div exists the success message is displayed. -/
theorem honeypot_short_circuit (env : SubmitEnv) (s0 : PageState)
    (hv : env.formValid = true)
    (hp : env.honeypotPresent = true) (hc : env.honeypotChecked = true) :
    (handleSubmit env s0).2 =
      [.showStatusE honeypotSuccessMsg .success, .formResetE] ∧
    Event.fetchE ∉ (handleSubmit env s0).2 ∧
    Event.tokenAcquireE ∉ (handleSubmit env s0).2 ∧
    (handleSubmit env s0).1.fields = resetFields ∧
    (env.statusDivPresent = true →
      (handleSubmit env s0).1.statusVisible = true ∧
      (handleSubmit env s0).1.statusText = honeypotSuccessMsg) := by
  refine ⟨?_, ?_, ?_, ?_, fun hsd => ⟨?_, ?_⟩⟩ <;>
    simp [handleSubmit, hv, hp, hc, showStatus, *]

/-- Witness for `honeypot_short_circuit` at a concrete environment. -/
theorem honeypot_short_circuit_witness :
    (handleSubmit
      { formValid := true, honeypotPresent := true, honeypotChecked := true
        statusDivPresent := true, recaptchaRespPresent := true
        tokenResult := .resolved "tok", fetchResult := .ok (.parsed true none)
        gtag := .absent } idleState).1.fields = resetFields :=
  (honeypot_short_circuit _ idleState rfl rfl rfl).2.2.2.1

/-- C2 — validation failure: `handleSubmit` shows the validation error
message and returns synchronously: no token acquisition, no fetch, the
loading state is never entered and the button state is untouched. -/
theorem validation_failure_terminal (env : SubmitEnv) (s0 : PageState)
    (hv : env.formValid = false) :
    (handleSubmit env s0).2 = [.showStatusE validationErrorMsg .error] ∧
    Event.fetchE ∉ (handleSubmit env s0).2 ∧
    Event.tokenAcquireE ∉ (handleSubmit env s0).2 ∧
    (∀ b, Event.setLoadingE b ∉ (handleSubmit env s0).2) ∧
    (handleSubmit env s0).1.buttonDisabled = s0.buttonDisabled ∧
    (handleSubmit env s0).1.fields = s0.fields ∧
    (env.statusDivPresent = true →
      (handleSubmit env s0).1.statusText = validationErrorMsg ∧
      (handleSubmit env s0).1.statusClass = "form-status error") := by
  refine ⟨?_, ?_, ?_, ?_, ?_, ?_, fun hsd => ⟨?_, ?_⟩⟩ <;>
    simp [handleSubmit, hv, showStatus, statusTypeStr, *] <;>
    split <;> rfl

/-- Witness for `validation_failure_terminal` at a concrete environment. -/
theorem validation_failure_terminal_witness :
    (handleSubmit
      { formValid := false, honeypotPresent := false, honeypotChecked := false
        statusDivPresent := true, recaptchaRespPresent := true
        tokenResult := .resolved "tok", fetchResult := .ok (.parsed true none)
        gtag := .absent } idleState).2 =
      [.showStatusE validationErrorMsg .error] :=
  (validation_failure_terminal _ idleState rfl).1

/-- The readiness checks of the polling loop happen at 500ms intervals:
starting from counter value `attempts`, the check times are
`500·attempts, 500·(attempts+1), …` for some positive number of checks
that never exceeds the remaining attempt budget. -/
theorem checkRecaptcha_times (ready : Nat → Bool) (exec : TokenResult)
    (maxAttempts : Nat) :
    ∀ attempts, attempts < maxAttempts →
    ∃ n, 1 ≤ n ∧ attempts + n ≤ maxAttempts ∧
      (checkRecaptcha ready exec maxAttempts attempts).2 =
        (List.range n).map (fun i => 500 * (attempts + i)) := by
  have H : ∀ k a, maxAttempts - a ≤ k → a < maxAttempts →
      ∃ n, 1 ≤ n ∧ a + n ≤ maxAttempts ∧
        (checkRecaptcha ready exec maxAttempts a).2 =
          (List.range n).map (fun i => 500 * (a + i)) := by
    intro k
    induction k with
    | zero => intro a hk ha; omega
    | succ k ih =>
      intro a hk ha
      rw [checkRecaptcha]
      by_cases hr : ready a
      · exact ⟨1, le_refl 1, by omega, by simp [hr, List.range_succ, List.range_zero]⟩
      · by_cases hlt : a + 1 < maxAttempts
        · obtain ⟨n, h1, h2, h3⟩ := ih (a + 1) (by omega) hlt
          refine ⟨n + 1, by omega, by omega, ?_⟩
          simp only [hr, if_false, hlt, if_true, Bool.false_eq_true]
          rw [h3, List.range_succ_eq_map, List.map_cons, List.map_map]
          refine congrArg₂ _ (by omega) (List.map_congr_left fun i _ => ?_)
          simp only [Function.comp_apply, Nat.succ_eq_add_one]
          ring
        · exact ⟨1, le_refl 1, by omega, by simp [hr, hlt, List.range_succ, List.range_zero]⟩
  exact fun a ha => H (maxAttempts - a) a (le_refl _) ha

/-- When the provider never becomes ready, the loop performs every check
and resolves with the empty string. -/
theorem checkRecaptcha_never_ready (ready : Nat → Bool) (exec : TokenResult)
    (hready : ∀ i, ready i = false) (maxAttempts : Nat) :
    ∀ attempts, attempts < maxAttempts →
    checkRecaptcha ready exec maxAttempts attempts =
      (.resolved "",
        (List.range (maxAttempts - attempts)).map (fun i => 500 * (attempts + i))) := by
  have H : ∀ k a, maxAttempts - a ≤ k → a < maxAttempts →
      checkRecaptcha ready exec maxAttempts a =
        (.resolved "",
          (List.range (maxAttempts - a)).map (fun i => 500 * (a + i))) := by
    intro k
    induction k with
    | zero => intro a hk ha; omega
    | succ k ih =>
      intro a hk ha
      rw [checkRecaptcha]
      by_cases hlt : a + 1 < maxAttempts
      · rw [ih (a + 1) (by omega) hlt]
        simp only [hready a, Bool.false_eq_true, if_false, hlt, if_true]
        refine Prod.ext rfl ?_
        have hm : maxAttempts - a = (maxAttempts - (a + 1)) + 1 := by omega
        rw [hm, List.range_succ_eq_map, List.map_cons, List.map_map]
        refine congrArg₂ _ (by omega) (List.map_congr_left fun i _ => ?_)
        simp only [Function.comp_apply, Nat.succ_eq_add_one]
        ring
      · have hm : maxAttempts - a = 1 := by omega
        simp [hready a, hlt, hm, List.range_succ, List.range_zero]
  exact fun a ha => H (maxAttempts - a) a (le_refl _) ha

/-- C4 — bounded polling: `getRecaptchaToken` checks readiness at a fixed
500ms interval, at most 20 times; if the provider is never ready, it
resolves with the empty string (never rejects, never hangs) after the
20th check. -/
theorem token_polling_bounded (ready : Nat → Bool) (exec : TokenResult) :
    (∃ n, 1 ≤ n ∧ n ≤ 20 ∧
      (getRecaptchaToken ready exec).2 = (List.range n).map (fun i => 500 * i)) ∧
    ((∀ i, ready i = false) →
      getRecaptchaToken ready exec =
        (.resolved "", (List.range 20).map (fun i => 500 * i))) := by
  constructor
  · obtain ⟨n, h1, h2, h3⟩ := checkRecaptcha_times ready exec 20 0 (by omega)
    exact ⟨n, h1, by omega, by simpa using h3⟩
  · intro h
    have hnr := checkRecaptcha_never_ready ready exec h 20 0 (by omega)
    simpa [getRecaptchaToken] using hnr

/-- Witness for `token_polling_bounded`: a provider that is never ready
yields the empty-token fallback after 20 checks 500ms apart. -/
theorem token_polling_bounded_witness :
    getRecaptchaToken (fun _ => false) (.resolved "t") =
      (.resolved "", (List.range 20).map (fun i => 500 * i)) :=
  (token_polling_bounded (fun _ => false) (.resolved "t")).2 (fun _ => rfl)

/-- C7 — missing form: when no element matches the form identifier the
constructor is a silent no-op: it is a total function (no exception), it
registers no submit interceptor, requests no provider script, and never
runs `init`. -/
theorem missing_form_noop :
    mkWeb3FormsHandler false =
      { formBound := false
        initRun := false
        effects := { listenerRegistered := false
                     recaptchaScriptRequested := false } } := rfl

/-- Calling `setLoadingState(false)` always leaves the submit control in the
enabled, non-loading visual state. -/
theorem interactiveButton_setLoadingState_false (s : PageState) :
    interactiveButton (setLoadingState s false) = true := by
  cases hT : s.btnTextDisplay <;> cases hL : s.btnLoaderDisplay <;>
    simp [setLoadingState, interactiveButton, hT, hL]

/-- The operation `showStatus` does not touch the submit control. -/
theorem interactiveButton_showStatus (p : Bool) (s : PageState) (m : String)
    (t : StatusType) :
    interactiveButton (showStatus p s m t) = interactiveButton s := by
  cases p <;> simp [showStatus, interactiveButton]

/-- C5 — every terminated submission attempt (success, API or network
failure, token failure, validation failure, honeypot short-circuit)
leaves the submit control enabled with the label shown and the spinner
hidden: a submission attempt started from the interactive state ends in
the interactive state on every path. -/
theorem all_paths_restore_button (env : SubmitEnv) (s0 : PageState)
    (h : interactiveButton s0 = true) :
    interactiveButton (handleSubmit env s0).1 = true := by
  rw [handleSubmit]
  by_cases hv : env.formValid
  · by_cases hb : env.honeypotPresent && env.honeypotChecked
    · simp only [hv, Bool.not_true, Bool.false_eq_true, if_false, hb, if_true]
      calc interactiveButton
            { showStatus env.statusDivPresent s0 honeypotSuccessMsg .success with
              fields := resetFields }
          = interactiveButton (showStatus env.statusDivPresent s0 honeypotSuccessMsg .success) := rfl
        _ = interactiveButton s0 := interactiveButton_showStatus _ _ _ _
        _ = true := h
    · simp only [hv, Bool.not_true, Bool.false_eq_true, if_false, hb]
      exact interactiveButton_setLoadingState_false _
  · have hv' : env.formValid = false := by simpa using hv
    simp only [hv', Bool.not_false, if_true]
    rw [interactiveButton_showStatus]
    exact h

/-- Witness for `all_paths_restore_button` at a concrete attempt. -/
theorem all_paths_restore_button_witness :
    interactiveButton (handleSubmit gtagThrowEnv idleState).1 = true :=
  all_paths_restore_button gtagThrowEnv idleState (by decide)

/-- C9 — single submission in flight: every `handleSubmit` call dispatches
at most one fetch, and any fetch it dispatches happens while the submit
button is disabled (the button is toggled on before the try block and
only toggled off by the terminal `finally`). -/
theorem single_flight (env : SubmitEnv) (s0 : PageState) :
    countFetch (handleSubmit env s0).2 ≤ 1 ∧
    fetchesWhileDisabled s0.buttonDisabled (handleSubmit env s0).2 = true := by
  rcases env with ⟨fv, hp, hc, sd, rp, tr, fr, gt⟩
  cases fv <;> cases hp <;> cases hc <;> cases rp <;> cases tr <;>
    rcases fr with _ | (_ | ⟨_ | _, _⟩) <;> cases gt <;>
    simp [handleSubmit, tryBody, countFetch, fetchesWhileDisabled]

/-- C3 counterexample: for a submission whose API response reports
success, a throwing `gtag` changes the outcome.  The call sits inside the
`try` block, so its exception reaches the catch block and the generic
error message overwrites the success status — unlike the `gtag`-absent
run, whose final status is the success message. -/
theorem gtag_throw_changes_outcome :
    (handleSubmit gtagThrowEnv idleState).1.statusText = genericErrorMsg ∧
    (handleSubmit { gtagThrowEnv with gtag := .absent } idleState).1.statusText =
      apiSuccessMsg ∧
    (handleSubmit gtagThrowEnv idleState).1.statusText ≠
      (handleSubmit { gtagThrowEnv with gtag := .absent } idleState).1.statusText := by
  decide

/-- C3 (amended) — for a submission whose API response reports success,
the outcome is identical whether `gtag` is absent or returns normally
(same final page state: success message, fields reset).  When `gtag`
throws, the form is still reset and the success status call still happens
first, but the final status is the generic error message. -/
theorem analytics_isolation (env : SubmitEnv) (s0 : PageState) (tok : String)
    (m : Option String)
    (hv : env.formValid = true)
    (hb : (env.honeypotPresent && env.honeypotChecked) = false)
    (hr : env.recaptchaRespPresent = true)
    (ht : env.tokenResult = .resolved tok)
    (hf : env.fetchResult = .ok (.parsed true m)) :
    (handleSubmit { env with gtag := .absent } s0).1 =
      (handleSubmit { env with gtag := .succeeds } s0).1 ∧
    (handleSubmit { env with gtag := .absent } s0).1.fields = resetFields ∧
    (env.statusDivPresent = true →
      (handleSubmit { env with gtag := .absent } s0).1.statusText = apiSuccessMsg) ∧
    (handleSubmit { env with gtag := .throws } s0).1.fields = resetFields ∧
    (env.statusDivPresent = true →
      (handleSubmit { env with gtag := .throws } s0).1.statusText = genericErrorMsg) := by
  rcases env with ⟨fv, hp, hc, sd, rp, tr, fr, gt⟩
  simp only at hv hb hr ht hf
  subst hv hr ht hf
  cases hp <;> cases hc <;> cases sd <;>
    refine ⟨?_, ?_, fun hsd => ?_, ?_, fun hsd => ?_⟩ <;>
    simp_all [handleSubmit, tryBody, showStatus, hideStatus, setLoadingState,
      statusTypeStr]

/-- Witness for `analytics_isolation` at a concrete environment. -/
theorem analytics_isolation_witness :
    (handleSubmit { gtagThrowEnv with gtag := .throws } idleState).1.fields =
      resetFields :=
  (analytics_isolation gtagThrowEnv idleState "tok" none rfl rfl rfl rfl rfl).2.2.2.1

/-- C6 — failed submissions keep the user's input: when the API reports
`success: false`, the body does not parse, or the fetch rejects, the
generic error message is displayed and the form fields are not reset. -/
theorem failure_preserves_fields (env : SubmitEnv) (s0 : PageState) (tok : String)
    (hv : env.formValid = true)
    (hb : (env.honeypotPresent && env.honeypotChecked) = false)
    (hr : env.recaptchaRespPresent = true)
    (ht : env.tokenResult = .resolved tok)
    (hf : fetchFailed env.fetchResult = true) :
    (handleSubmit env s0).1.fields = s0.fields ∧
    Event.formResetE ∉ (handleSubmit env s0).2 ∧
    (env.statusDivPresent = true →
      (handleSubmit env s0).1.statusText = genericErrorMsg ∧
      (handleSubmit env s0).1.statusClass = "form-status error" ∧
      (handleSubmit env s0).1.statusVisible = true) := by
  rcases env with ⟨fv, hp, hc, sd, rp, tr, fr, gt⟩
  simp only at hv hb hr ht hf
  subst hv hr ht
  rcases fr with _ | (_ | ⟨_ | _, m⟩) <;>
    cases hp <;> cases hc <;> cases sd <;>
    refine ⟨?_, ?_, fun hsd => ?_⟩ <;>
    simp_all [handleSubmit, tryBody, showStatus, hideStatus, setLoadingState,
      statusTypeStr, fetchFailed]

/-- Witness for `failure_preserves_fields` at a concrete environment. -/
theorem failure_preserves_fields_witness :
    (handleSubmit { gtagThrowEnv with fetchResult := .netError } idleState).1.fields =
      idleState.fields :=
  (failure_preserves_fields { gtagThrowEnv with fetchResult := .netError }
    idleState "tok" rfl rfl rfl rfl rfl).1

/-- C10 — missing `#recaptchaResponse` element: the token-injection
assignment throws before form data is collected, so no fetch is issued;
the generic error message is shown and the submit control ends enabled. -/
theorem missing_token_element_aborts (env : SubmitEnv) (s0 : PageState) (tok : String)
    (hv : env.formValid = true)
    (hb : (env.honeypotPresent && env.honeypotChecked) = false)
    (hr : env.recaptchaRespPresent = false)
    (ht : env.tokenResult = .resolved tok) :
    Event.fetchE ∉ (handleSubmit env s0).2 ∧
    (handleSubmit env s0).1.fields = s0.fields ∧
    (handleSubmit env s0).1.buttonDisabled = false ∧
    interactiveButton (handleSubmit env s0).1 = true ∧
    (env.statusDivPresent = true →
      (handleSubmit env s0).1.statusText = genericErrorMsg ∧
      (handleSubmit env s0).1.statusClass = "form-status error") := by
  rcases env with ⟨fv, hp, hc, sd, rp, tr, fr, gt⟩
  simp only at hv hb hr ht
  subst hv hr ht
  refine ⟨?_, ?_, ?_, ?_, fun hsd => ?_⟩
  · simp [handleSubmit, tryBody, hb]
  · simp [handleSubmit, tryBody, showStatus, hideStatus, setLoadingState, hb]
    split <;> rfl
  · simp [handleSubmit, tryBody, showStatus, hideStatus, setLoadingState, hb]
  · have hfin :
        (handleSubmit
          ⟨true, hp, hc, sd, false, .resolved tok, fr, gt⟩ s0).1 =
        setLoadingState
          (showStatus sd
            (hideStatus sd (setLoadingState s0 true)) genericErrorMsg .error)
          false := by
      simp [handleSubmit, tryBody, hb]
    rw [hfin]
    exact interactiveButton_setLoadingState_false _
  · subst hsd
    refine ⟨?_, ?_⟩ <;>
      simp [handleSubmit, tryBody, showStatus, hideStatus, setLoadingState,
        statusTypeStr, hb]

/-- Witness for `missing_token_element_aborts` at a concrete environment. -/
theorem missing_token_element_aborts_witness :
    Event.fetchE ∉
      (handleSubmit { gtagThrowEnv with recaptchaRespPresent := false }
        idleState).2 :=
  (missing_token_element_aborts { gtagThrowEnv with recaptchaRespPresent := false }
    idleState "tok" rfl rfl rfl rfl).1

/-- C8 — lifetimes in the shared status region: a success message shown at
time `t` is auto-hidden by its 5-second timer at any observation time
≥ `t + 5000`; an error message shown when no auto-hide timer is pending
stays visible at every later observation time until a further
`showStatus`/`hideStatus` call; and after any call sequence the region
holds exactly the newest message and its class (one message at a time). -/
theorem status_message_lifetimes (st : TimedStatus) (t tEnd : Nat) (m : String) :
    (t + 5000 ≤ tEnd →
      (runStatus st [(t, .showCall m .success)] tEnd).visible = false) ∧
    (st.timers = [] →
      (runStatus st [(t, .showCall m .error)] tEnd).visible = true ∧
      (runStatus st [(t, .showCall m .error)] tEnd).text = m ∧
      (runStatus st [(t, .showCall m .error)] tEnd).cls = "form-status error") ∧
    (∀ (evs : List (Nat × StatusCall)) (k : StatusType),
      (runStatus st (evs ++ [(t, .showCall m k)]) tEnd).text = m ∧
      (runStatus st (evs ++ [(t, .showCall m k)]) tEnd).cls =
        "form-status " ++ statusTypeStr k) := by
  refine ⟨fun h => ?_, fun hT => ?_, fun evs k => ?_⟩
  · simp [runStatus, fireTimers, showStatusAt, List.any_append, h]
  · simp [runStatus, fireTimers, showStatusAt, statusTypeStr, hT]
  · induction evs generalizing st with
    | nil => simp [runStatus, fireTimers, showStatusAt]
    | cons e rest ih =>
      obtain ⟨t', c⟩ := e
      simp only [List.cons_append, runStatus]
      exact ih _

/-- Witness for `status_message_lifetimes` at concrete calls. -/
theorem status_message_lifetimes_witness :
    (runStatus { visible := false, text := "", cls := "", timers := [] }
        [(0, .showCall "sent" .success)] 5000).visible = false ∧
    (runStatus { visible := false, text := "", cls := "", timers := [] }
        [(0, .showCall "failed" .error)] 99999).visible = true :=
  ⟨(status_message_lifetimes _ 0 5000 "sent").1 (by decide),
   ((status_message_lifetimes _ 0 99999 "failed").2.1 rfl).1⟩

end Web3Forms
